import Mathlib

/-!
Shallow embedding of the subscription reconciliation core of a Stripe/Firestore
Express backend: the webhook reconciler, single-active-subscription enforcement,
the financial ledger lifecycle, and the parental-consent verification token
store.

Modeling conventions, used throughout:
- Timestamps are natural numbers (epoch milliseconds).  The source converts
  them to ISO-8601 strings before storing; that conversion is a monotone
  encoding and comparisons on the encoded strings agree with comparisons on
  the numbers, so it is not modeled.
- Document stores (Firestore collections, the in-memory token Map) are lists
  of records.  Document order is irrelevant to every property proved here.
- External calls that can fail (Stripe API, Firestore writes) are modeled
  with Option/Except together with explicit failure oracles, and the
  try/catch blocks of the source become explicit matches on those values.
-/

namespace FF

/-- Parental-consent verification token record, as stored in the in-memory
verificationTokens Map by the send-verification-email endpoint. -/
structure TokenRecord where
  parentEmail : String
  childName : String
  token : String
  createdAt : Nat
  expiresAt : Nat
  isVerified : Bool
  verifiedAt : Option Nat
  deriving DecidableEq

/-- The in-memory verificationTokens Map: association list keyed by token. -/
abbrev TokenMap : Type := List (String × TokenRecord)

/-- Map.get: first entry with the given key. -/
def tokensGet (m : TokenMap) (t : String) : Option TokenRecord :=
  (m.find? (fun p => p.1 == t)).map (fun p => p.2)

/-- Map.set: overwrite the entry in place when the key exists, append
otherwise. -/
def tokensSet (m : TokenMap) (t : String) (d : TokenRecord) : TokenMap :=
  if m.any (fun p => p.1 == t) then
    m.map (fun p => if p.1 == t then (t, d) else p)
  else
    m ++ [(t, d)]

/-- Map.delete by key. -/
def tokensDelete (m : TokenMap) (t : String) : TokenMap :=
  m.filter (fun p => !(p.1 == t))

/-- Token storage step of the send-verification-email endpoint:
a record with a 24 hour expiry, not yet verified. -/
def storeVerificationToken (verificationToken parentEmail childName : String)
    (now : Nat) (m : TokenMap) : TokenMap :=
  tokensSet m verificationToken
    { parentEmail := parentEmail
      childName := childName
      token := verificationToken
      createdAt := now
      expiresAt := now + 24 * 60 * 60 * 1000
      isVerified := false
      verifiedAt := none }

/-- The four caller-visible outcomes of the verify-parental-consent endpoint
(distinct JSON bodies in the source). -/
inductive VerifyOutcome where
  | notFound
  | expired
  | alreadyVerified
  | verified (childName : String) (parentEmail : String)
  deriving DecidableEq

/-- The verify-parental-consent endpoint: looks the token up, evicts and
fails when expired, fails when already verified, otherwise marks the record
verified and returns the consent data. -/
def verifyParentalConsent (token : String) (now : Nat) (m : TokenMap) :
    VerifyOutcome × TokenMap :=
  match tokensGet m token with
  | none => (.notFound, m)
  | some d =>
    if now > d.expiresAt then
      (.expired, tokensDelete m token)
    else if d.isVerified then
      (.alreadyVerified, m)
    else
      (.verified d.childName d.parentEmail,
       tokensSet m token { d with isVerified := true, verifiedAt := some now })

/-- Financial ledger record kept for tax compliance (financial_records
collection).  The amount field holds the raw gateway unit amount; the

source divides it by 100 for display, which no claim depends on. -/
structure FinRecord where
  recordId : String
  userId : String
  userEmail : Option String
  userName : Option String
  subscriptionId : String
  stripeCustomerId : Option String
  planType : String
  billingCycle : String
  amount : Nat
  startDate : Nat
  endDate : Nat
  status : String
  isTherapyReferral : Bool
  promoCode : Option String
  isAnonymized : Bool
  anonymizedAt : Option Nat
  retainUntil : Nat
  createdAt : Nat
  updatedAt : Nat
  deriving DecidableEq

/-- Input bundle accepted by createFinancialRecord (the subscriptionData
object at its call sites). -/
structure FinInput where
  userId : String
  userEmail : Option String
  userName : Option String
  stripeSubscriptionId : String
  stripeCustomerId : Option String
  planType : String
  billingCycle : String
  amount : Nat
  startDate : Nat
  endDate : Nat
  status : Option String
  isTherapyReferral : Bool
  promoCode : Option String
  deriving DecidableEq

/-- retainUntil = now + 7 years.  The source adds 7 calendar years with
setFullYear; the exact length is irrelevant to every claim, so a fixed
7-year span in milliseconds is used. -/
def addSevenYears (t : Nat) : Nat :=
  t + 7 * 365 * 24 * 60 * 60 * 1000

/-- createFinancialRecord: the record written to the financial_records
collection.  recordId is the freshly generated unique id; now is the wall
clock.  The source function never throws (it catches internally and
returns null), which its callers rely on. -/
def createFinancialRecord (d : FinInput) (recordId : String) (now : Nat) :
    FinRecord :=
  { recordId := recordId
    userId := d.userId
    userEmail := d.userEmail
    userName := d.userName
    subscriptionId := d.stripeSubscriptionId
    stripeCustomerId := d.stripeCustomerId
    planType := d.planType
    billingCycle := d.billingCycle
    amount := d.amount
    startDate := d.startDate
    endDate := d.endDate
    status := d.status.getD "active"
    isTherapyReferral := d.isTherapyReferral
    promoCode := d.promoCode
    isAnonymized := false
    anonymizedAt := none
    retainUntil := addSevenYears now
    createdAt := now
    updatedAt := now }

/-- anonymizeFinancialRecords: query all records of the user that are not
yet anonymized; if none, return unchanged; otherwise batch-update exactly
the matched records, redacting the PII fields to the [DELETED] sentinel. -/
def anonymizeFinancialRecords (userId : String) (now : Nat)
    (L : List FinRecord) : List FinRecord :=
  if (L.filter (fun r => r.userId == userId && r.isAnonymized == false)).isEmpty then
    L
  else
    L.map (fun r =>
      if r.userId == userId && r.isAnonymized == false then
        { r with
          userId := "[DELETED]"
          userEmail := some "[DELETED]"
          userName := some "[DELETED]"
          stripeCustomerId := some "[DELETED]"
          isAnonymized := true
          anonymizedAt := some now
          updatedAt := now }
      else r)

/-- cleanupExpiredFinancialRecords: query all records with retainUntil
strictly before now; if none, report 0 deletions; otherwise batch-delete
exactly the queried documents (by document id) and report how many. -/
def cleanupExpiredFinancialRecords (now : Nat) (L : List FinRecord) :
    Nat × List FinRecord :=
  if (L.filter (fun r => decide (r.retainUntil < now))).isEmpty then (0, L)
  else
    ((L.filter (fun r => decide (r.retainUntil < now))).length,
     L.filter (fun r =>
       !((L.filter (fun e => decide (e.retainUntil < now))).any
           (fun e => e.recordId == r.recordId))))

/-! ### Helper lemmas for the token map -/

theorem find_map_replace (m : TokenMap) (t : String) (d : TokenRecord)
    (h : m.any (fun p => p.1 == t) = true) :
    (m.map (fun p => if p.1 == t then (t, d) else p)).find?
      (fun p => p.1 == t) = some (t, d) := by
  induction m with
  | nil => simp at h
  | cons p m ih =>
    simp only [List.map_cons]
    by_cases hp : (p.1 == t) = true
    · rw [if_pos hp]
      exact List.find?_cons_of_pos _ (by simp)
    · rw [if_neg hp]
      have hstep : List.find? (fun q => q.1 == t)
          (p :: m.map (fun q => if q.1 == t then (t, d) else q)) =
          List.find? (fun q => q.1 == t)
          (m.map (fun q => if q.1 == t then (t, d) else q)) :=
        List.find?_cons_of_neg _ hp
      rw [hstep]
      apply ih
      rw [List.any_cons, Bool.eq_false_iff.mpr hp] at h
      simpa using h

theorem find_append_single (m : TokenMap) (t : String) (d : TokenRecord)
    (h : m.any (fun p => p.1 == t) = false) :
    (m ++ [(t, d)]).find? (fun p => p.1 == t) = some (t, d) := by
  induction m with
  | nil =>
    simp only [List.nil_append]
    exact List.find?_cons_of_pos _ (by simp)
  | cons p m ih =>
    rw [List.any_cons] at h
    have hp : (p.1 == t) = false := by
      cases hpb : (p.1 == t)
      · rfl
      · rw [hpb] at h
        simp at h
    have hm : m.any (fun q => q.1 == t) = false := by
      rw [hp] at h
      simpa using h
    have hstep : List.find? (fun q => q.1 == t) (p :: (m ++ [(t, d)])) =
        List.find? (fun q => q.1 == t) (m ++ [(t, d)]) :=
      List.find?_cons_of_neg _ (by simp [hp])
    rw [List.cons_append, hstep, ih hm]

theorem tokensGet_set_self (m : TokenMap) (t : String) (d : TokenRecord) :
    tokensGet (tokensSet m t d) t = some d := by
  unfold tokensGet tokensSet
  by_cases hb : (m.any (fun p => p.1 == t)) = true
  · rw [if_pos hb, find_map_replace m t d hb]
    rfl
  · rw [if_neg hb, find_append_single m t d (Bool.eq_false_iff.mpr hb)]
    rfl

theorem tokensGet_delete_self (m : TokenMap) (t : String) :
    tokensGet (tokensDelete m t) t = none := by
  unfold tokensGet tokensDelete
  have hfind : (m.filter (fun p => !(p.1 == t))).find? (fun p => p.1 == t) = none := by
    rw [List.find?_eq_none]
    intro p hp
    have h2 := (List.mem_filter.mp hp).2
    simp at h2
    simp [h2]
  rw [hfind]
  rfl

/-! ### Claim theorems: token store and financial ledger -/

/-- Claim C9: Verify(token) has exactly four caller-distinguishable
outcomes: NotFound when the token is absent; Expired when now is past
expiresAt, evicting the record; AlreadyVerified when isVerified already
holds, leaving the store unchanged; otherwise success, marking the record
verified with verifiedAt = now and returning childName and parentEmail. -/
theorem verify_token_four_outcomes (token : String) (now : Nat) (m : TokenMap) :
    (tokensGet m token = none →
       verifyParentalConsent token now m = (.notFound, m))
  ∧ (∀ d, tokensGet m token = some d →
       (now > d.expiresAt →
          (verifyParentalConsent token now m).1 = .expired ∧
          tokensGet (verifyParentalConsent token now m).2 token = none)
     ∧ (¬ now > d.expiresAt → d.isVerified = true →
          verifyParentalConsent token now m = (.alreadyVerified, m))
     ∧ (¬ now > d.expiresAt → d.isVerified = false →
          (verifyParentalConsent token now m).1
              = .verified d.childName d.parentEmail ∧
          tokensGet (verifyParentalConsent token now m).2 token =
            some { d with isVerified := true, verifiedAt := some now })) := by
  constructor
  · intro h
    unfold verifyParentalConsent
    rw [h]
  · intro d hd
    refine ⟨?_, ?_, ?_⟩
    · intro hexp
      have hE : verifyParentalConsent token now m =
          (.expired, tokensDelete m token) := by
        unfold verifyParentalConsent
        rw [hd]
        simp [hexp]
      rw [hE]
      exact ⟨rfl, tokensGet_delete_self m token⟩
    · intro hexp hver
      unfold verifyParentalConsent
      rw [hd]
      simp [hexp, hver]
    · intro hexp hver
      have hE : verifyParentalConsent token now m =
          (.verified d.childName d.parentEmail,
           tokensSet m token { d with isVerified := true, verifiedAt := some now }) := by
        unfold verifyParentalConsent
        rw [hd]
        simp [hexp, hver]
      rw [hE]
      exact ⟨rfl, tokensGet_set_self m token _⟩

/-- Concrete token store: token abc123 issued for child Mia at time 0. -/
def demoTokens : TokenMap :=
  storeVerificationToken "abc123" "p@x.com" "Mia" 0 []

/-- Concrete record held by demoTokens. -/
def demoTokenRecord : TokenRecord :=
  { parentEmail := "p@x.com", childName := "Mia", token := "abc123"
    createdAt := 0, expiresAt := 86400000, isVerified := false
    verifiedAt := none }

/-- Witness for C9: verifying a fresh token one hour in succeeds and
returns the consent data; verifying it again returns AlreadyVerified. -/
theorem verify_token_four_outcomes_witness :
    (verifyParentalConsent "abc123" 3600000 demoTokens).1
        = .verified "Mia" "p@x.com"
  ∧ (verifyParentalConsent "abc123" 3600001
        (verifyParentalConsent "abc123" 3600000 demoTokens).2).1
        = VerifyOutcome.alreadyVerified := by
  have h1 := (verify_token_four_outcomes "abc123" 3600000 demoTokens).2
    demoTokenRecord (by decide)
  refine ⟨(h1.2.2 (by decide) (by decide)).1, ?_⟩
  have h2 := (verify_token_four_outcomes "abc123" 3600001
      (verifyParentalConsent "abc123" 3600000 demoTokens).2).2
    { demoTokenRecord with isVerified := true, verifiedAt := some 3600000 }
    (by decide)
  have h3 := h2.2.1 (by decide) (by decide)
  exact congrArg Prod.fst h3

/-- If the user has no non-anonymized records, Anonymize leaves the ledger
unchanged (the zero-match early return of the source). -/
theorem anonymize_of_no_match (u : String) (t : Nat) (M : List FinRecord)
    (h : (M.filter (fun r => r.userId == u && r.isAnonymized == false)).isEmpty
          = true) :
    anonymizeFinancialRecords u t M = M := by
  unfold anonymizeFinancialRecords
  rw [if_pos h]

/-- Claim C7: Anonymize(userId) is idempotent, does not error on zero
matches, and redacts every previously non-anonymized record of the user to
the fixed [DELETED] sentinel with isAnonymized set and anonymizedAt
stamped. -/
theorem anonymize_idempotent_and_redacts (u : String) (t1 t2 : Nat)
    (L : List FinRecord) :
    anonymizeFinancialRecords u t2 (anonymizeFinancialRecords u t1 L)
        = anonymizeFinancialRecords u t1 L
  ∧ anonymizeFinancialRecords u t1 [] = []
  ∧ (∀ r ∈ L, r.userId = u → r.isAnonymized = false →
      ({ r with
          userId := "[DELETED]"
          userEmail := some "[DELETED]"
          userName := some "[DELETED]"
          stripeCustomerId := some "[DELETED]"
          isAnonymized := true
          anonymizedAt := some t1
          updatedAt := t1 } : FinRecord) ∈ anonymizeFinancialRecords u t1 L) := by
  refine ⟨?_, rfl, ?_⟩
  · by_cases hm :
      (L.filter (fun r => r.userId == u && r.isAnonymized == false)).isEmpty = true
    · rw [anonymize_of_no_match u t1 L hm, anonymize_of_no_match u t2 L hm]
    · have h1 : anonymizeFinancialRecords u t1 L =
          L.map (fun r =>
            if r.userId == u && r.isAnonymized == false then
              { r with
                userId := "[DELETED]", userEmail := some "[DELETED]"
                userName := some "[DELETED]"
                stripeCustomerId := some "[DELETED]"
                isAnonymized := true, anonymizedAt := some t1
                updatedAt := t1 }
            else r) := by
        unfold anonymizeFinancialRecords
        rw [if_neg hm]
      have h2 : ∀ x ∈ anonymizeFinancialRecords u t1 L,
          (x.userId == u && x.isAnonymized == false) = false := by
        rw [h1]
        intro x hx
        obtain ⟨r, _, hr⟩ := List.mem_map.mp hx
        by_cases hc : (r.userId == u && r.isAnonymized == false) = true
        · rw [if_pos hc] at hr
          subst hr
          simp
        · rw [if_neg hc] at hr
          subst hr
          cases hcb : (r.userId == u && r.isAnonymized == false)
          · rfl
          · exact absurd hcb hc
      have h3 : ((anonymizeFinancialRecords u t1 L).filter
          (fun r => r.userId == u && r.isAnonymized == false)).isEmpty = true := by
        rw [List.isEmpty_iff, List.filter_eq_nil_iff]
        intro a ha
        simp only [h2 a ha]
        exact Bool.false_ne_true
      exact anonymize_of_no_match u t2 _ h3
  · intro r hr hu ha
    have hp : (r.userId == u && r.isAnonymized == false) = true := by
      simp [hu, ha]
    have hmem : r ∈ L.filter (fun r => r.userId == u && r.isAnonymized == false) :=
      List.mem_filter.mpr ⟨hr, hp⟩
    have hm : ¬ (L.filter
        (fun r => r.userId == u && r.isAnonymized == false)).isEmpty = true := by
      cases hq : L.filter (fun r => r.userId == u && r.isAnonymized == false) with
      | nil =>
        rw [hq] at hmem
        simp at hmem
      | cons a l =>
        simp
    unfold anonymizeFinancialRecords
    rw [if_neg hm]
    refine List.mem_map.mpr ⟨r, hr, ?_⟩
    rw [if_pos hp]

/-- Concrete ledger: one record of user u1, not anonymized. -/
def demoLedger : List FinRecord :=
  [createFinancialRecord
    { userId := "u1", userEmail := some "a@b.c", userName := none
      stripeSubscriptionId := "s1", stripeCustomerId := some "c1"
      planType := "starter", billingCycle := "monthly", amount := 999
      startDate := 0, endDate := 100, status := some "active"
      isTherapyReferral := false, promoCode := none } "fin1" 10]

/-- Witness for C7 at a concrete ledger. -/
theorem anonymize_idempotent_and_redacts_witness :
    anonymizeFinancialRecords "u1" 50
        (anonymizeFinancialRecords "u1" 20 demoLedger)
      = anonymizeFinancialRecords "u1" 20 demoLedger
  ∧ ({ (createFinancialRecord
        { userId := "u1", userEmail := some "a@b.c", userName := none
          stripeSubscriptionId := "s1", stripeCustomerId := some "c1"
          planType := "starter", billingCycle := "monthly", amount := 999
          startDate := 0, endDate := 100, status := some "active"
          isTherapyReferral := false, promoCode := none } "fin1" 10) with
        userId := "[DELETED]"
        userEmail := some "[DELETED]"
        userName := some "[DELETED]"
        stripeCustomerId := some "[DELETED]"
        isAnonymized := true
        anonymizedAt := some 20
        updatedAt := 20 } : FinRecord) ∈
      anonymizeFinancialRecords "u1" 20 demoLedger := by
  have h := anonymize_idempotent_and_redacts "u1" 20 50 demoLedger
  exact ⟨h.1, h.2.2 _ (by decide) (by decide) (by decide)⟩

/-- Claim C8: Sweep() deletes exactly the ledger records whose retainUntil
is strictly before the current time, regardless of anonymization state,
keeps every record with retainUntil at or after now, and reports the count
removed.  Records are deleted by document id, so document ids are assumed
unique, as Firestore guarantees. -/
theorem sweep_removes_exactly_expired (now : Nat) (L : List FinRecord)
    (hN : (L.map (fun r => r.recordId)).Nodup) :
    (cleanupExpiredFinancialRecords now L).1
        = (L.filter (fun r => decide (r.retainUntil < now))).length
  ∧ (cleanupExpiredFinancialRecords now L).2
        = L.filter (fun r => !(decide (r.retainUntil < now)))
  ∧ (∀ r ∈ L, r.retainUntil < now →
        r ∉ (cleanupExpiredFinancialRecords now L).2)
  ∧ (∀ r ∈ L, ¬ r.retainUntil < now →
        r ∈ (cleanupExpiredFinancialRecords now L).2) := by
  have hinj := List.inj_on_of_nodup_map hN
  have hmain : (cleanupExpiredFinancialRecords now L).1
        = (L.filter (fun r => decide (r.retainUntil < now))).length
      ∧ (cleanupExpiredFinancialRecords now L).2
        = L.filter (fun r => !(decide (r.retainUntil < now))) := by
    unfold cleanupExpiredFinancialRecords
    by_cases hE : (L.filter (fun r => decide (r.retainUntil < now))).isEmpty = true
    · rw [if_pos hE]
      have hnil : L.filter (fun r => decide (r.retainUntil < now)) = [] :=
        List.isEmpty_iff.mp hE
      have hall : ∀ r ∈ L, ¬ (decide (r.retainUntil < now)) = true :=
        List.filter_eq_nil_iff.mp hnil
      constructor
      · rw [hnil]
        rfl
      · have : L.filter (fun r => !(decide (r.retainUntil < now))) = L := by
          rw [List.filter_eq_self]
          intro a ha
          simp only [Bool.not_eq_true']
          exact Bool.eq_false_iff.mpr (hall a ha)
        rw [this]
    · rw [if_neg hE]
      refine ⟨rfl, ?_⟩
      apply List.filter_congr
      intro r hr
      by_cases hlt : (decide (r.retainUntil < now)) = true
      · have hmem : r ∈ L.filter (fun e => decide (e.retainUntil < now)) :=
          List.mem_filter.mpr ⟨hr, hlt⟩
        have hany : ((L.filter (fun e => decide (e.retainUntil < now))).any
            (fun e => e.recordId == r.recordId)) = true :=
          List.any_eq_true.mpr ⟨r, hmem, by simp⟩
        rw [hany, hlt]
      · have hany : ((L.filter (fun e => decide (e.retainUntil < now))).any
            (fun e => e.recordId == r.recordId)) = false := by
          cases hq : ((L.filter (fun e => decide (e.retainUntil < now))).any
              (fun e => e.recordId == r.recordId)) with
          | false => rfl
          | true =>
            obtain ⟨e, he, heq⟩ := List.any_eq_true.mp hq
            have heL : e ∈ L := (List.mem_filter.mp he).1
            have helt : (decide (e.retainUntil < now)) = true :=
              (List.mem_filter.mp he).2
            have : e = r := hinj heL hr (by simpa using heq)
            rw [this] at helt
            exact absurd helt hlt
        rw [hany, Bool.eq_false_iff.mpr hlt]
  refine ⟨hmain.1, hmain.2, ?_, ?_⟩
  · intro r hr hlt hcontra
    rw [hmain.2] at hcontra
    have := (List.mem_filter.mp hcontra).2
    simp at this
    exact absurd hlt (by simpa using this)
  · intro r hr hge
    rw [hmain.2]
    exact List.mem_filter.mpr ⟨hr, by simpa using hge⟩

/-- Concrete ledger for the sweep witness: one expired record, one not. -/
def demoSweepLedger : List FinRecord :=
  [createFinancialRecord
    { userId := "u1", userEmail := some "a@b.c", userName := none
      stripeSubscriptionId := "s1", stripeCustomerId := some "c1"
      planType := "starter", billingCycle := "monthly", amount := 999
      startDate := 0, endDate := 100, status := some "active"
      isTherapyReferral := false, promoCode := none } "finA" 0,
   createFinancialRecord
    { userId := "u2", userEmail := none, userName := none
      stripeSubscriptionId := "s2", stripeCustomerId := none
      planType := "premium", billingCycle := "yearly", amount := 4999
      startDate := 5, endDate := 100, status := some "incomplete"
      isTherapyReferral := false, promoCode := none } "finB" 300000000000]

/-- Witness for C8: sweeping at a time past the first record's retainUntil
but not the second removes exactly the first. -/
theorem sweep_removes_exactly_expired_witness :
    (cleanupExpiredFinancialRecords 250000000000 demoSweepLedger).1 = 1
  ∧ (cleanupExpiredFinancialRecords 250000000000 demoSweepLedger).2
      = demoSweepLedger.filter
          (fun r => !(decide (r.retainUntil < 250000000000))) := by
  have h := sweep_removes_exactly_expired 250000000000 demoSweepLedger
    (by decide)
  exact ⟨by rw [h.1]; decide, h.2.1⟩

/-! ### Subscription mirror store, gateway objects and the reconciler -/

/-- Subscription Mirror Record: the document stored in the subscriptions
collection, keyed by document id sub_ plus the gateway subscription id. -/
structure SubRecord where
  id : String
  userId : String
  planType : String
  billingCycle : String
  status : String
  stripeSubscriptionId : String
  stripeCustomerId : String
  currentPeriodStart : Nat
  currentPeriodEnd : Nat
  cancelAtPeriodEnd : Bool
  isTherapyReferral : Bool
  canceledAt : Option Nat
  createdAt : Nat
  updatedAt : Nat
  deriving DecidableEq

/-- Gateway subscription object as delivered in webhook payloads and
returned by subscription creation.  metadata keys are optional; unitAmount
is items.data[0].price.unit_amount. -/
structure StripeSubscription where
  id : String
  customer : String
  status : String
  metadataPlanType : Option String
  metadataBillingCycle : Option String
  metadataIsTherapyReferral : Bool
  metadataPromoCode : Option String
  cancel_at_period_end : Bool
  current_period_start : Nat
  current_period_end : Nat
  created : Nat
  updated : Nat
  unitAmount : Nat
  deriving DecidableEq

/-- Gateway invoice object: only the subscription reference is used. -/
structure Invoice where
  id : String
  subscription : Option String
  deriving DecidableEq

/-- External collaborators: the gateway customer store (customer id to
email; none models a failed retrieve), the user directory (document id and
email pairs), and the gateway's live subscription status (used by the
invoice handlers; none models a failed retrieve). -/
structure Env where
  customerEmail : String → Option String
  users : List (String × String)
  liveStatus : String → Option String

/-- Failure oracle for calls whose failure the source catches:
cancelFails says whether the gateway cancellation of a given subscription
id throws; finCreateFails says whether financial record creation fails
(createFinancialRecord absorbs its own errors and returns null). -/
structure Oracle where
  cancelFails : String → Bool
  finCreateFails : Bool

/-- Directory query: users where email == e, limit 1; the resulting
userId is the matched document's id. -/
def lookupUserByEmail (users : List (String × String)) (e : String) :
    Option String :=
  (users.find? (fun p => p.2 == e)).map (fun p => p.1)

/-- userId resolution used by the webhook handlers: retrieve the gateway
customer, then look its email up in the user directory. -/
def resolveUser (env : Env) (customerId : String) : Option String :=
  match env.customerEmail customerId with
  | none => none
  | some e => lookupUserByEmail env.users e

/-- Firestore document set with a given id: overwrite the document when it
exists, insert otherwise.  Order of unrelated documents is irrelevant, so
replacement is modeled as remove-then-append. -/
def fsSet (s : List SubRecord) (r : SubRecord) : List SubRecord :=
  s.filter (fun x => !(x.id == r.id)) ++ [r]

/-- Firestore document update: apply f to the document with the given id,
failing (throwing, in the source) when no such document exists. -/
def fsUpdate (s : List SubRecord) (docId : String) (f : SubRecord → SubRecord) :
    Option (List SubRecord) :=
  if s.any (fun x => x.id == docId) then
    some (s.map (fun x => if x.id == docId then f x else x))
  else
    none

/-- The mirror record written by handleSubscriptionCreated. -/
def webhookSubRecord (userId : String) (sub : StripeSubscription) : SubRecord :=
  { id := "sub_" ++ sub.id
    userId := userId
    planType := sub.metadataPlanType.getD "unknown"
    billingCycle := sub.metadataBillingCycle.getD "monthly"
    status := sub.status
    stripeSubscriptionId := sub.id
    stripeCustomerId := sub.customer
    currentPeriodStart := sub.current_period_start
    currentPeriodEnd := sub.current_period_end
    cancelAtPeriodEnd := sub.cancel_at_period_end
    isTherapyReferral := sub.metadataIsTherapyReferral
    canceledAt := none
    createdAt := sub.created
    updatedAt := sub.updated }

/-- The financial record input assembled by handleSubscriptionCreated. -/
def webhookFinInput (userId email : String) (sub : StripeSubscription) :
    FinInput :=
  { userId := userId
    userEmail := some email
    userName := none
    stripeSubscriptionId := sub.id
    stripeCustomerId := some sub.customer
    planType := sub.metadataPlanType.getD "unknown"
    billingCycle := sub.metadataBillingCycle.getD "monthly"
    amount := sub.unitAmount
    startDate := sub.current_period_start
    endDate := sub.current_period_end
    status := some sub.status
    isTherapyReferral := sub.metadataIsTherapyReferral
    promoCode := sub.metadataPromoCode }

/-- Combined server-side state touched by the reconciler: the subscriptions
collection and the financial_records collection. -/
structure ServerState where
  subs : List SubRecord
  fins : List FinRecord
  deriving DecidableEq

/-- handleSubscriptionCreated: resolve the user from the gateway customer
email (the none branch is the customer-retrieve failure absorbed by the
handler catch); when no user matches, log and return without writing;
otherwise set the mirror record and then, in a nested best-effort try,
append a financial ledger record (unconditionally on status; recId is the
freshly generated ledger document id). -/
def handleSubscriptionCreated (env : Env) (o : Oracle)
    (sub : StripeSubscription) (recId : String) (now : Nat)
    (st : ServerState) : ServerState :=
  match env.customerEmail sub.customer with
  | none => st
  | some email =>
    match lookupUserByEmail env.users email with
    | none => st
    | some userId =>
      { subs := fsSet st.subs (webhookSubRecord userId sub)
        fins :=
          if o.finCreateFails then st.fins
          else st.fins ++
            [createFinancialRecord (webhookFinInput userId email sub) recId now] }

/-- The field update applied by handleSubscriptionUpdated; stamps
canceledAt when the new status is canceled. -/
def updatedFields (sub : StripeSubscription) (now : Nat) (r : SubRecord) :
    SubRecord :=
  { r with
    status := sub.status
    planType := sub.metadataPlanType.getD "unknown"
    billingCycle := sub.metadataBillingCycle.getD "monthly"
    cancelAtPeriodEnd := sub.cancel_at_period_end
    currentPeriodStart := sub.current_period_start
    currentPeriodEnd := sub.current_period_end
    updatedAt := sub.updated
    canceledAt := if sub.status == "canceled" then some now else r.canceledAt }

/-- ensureSingleActiveSubscription: resolve the user of the newly active
subscription from the gateway customer email (return unchanged when the
retrieve fails or no user matches); query all other active mirror records
of that user; for each, request cancellation-at-period-end from the
gateway and, only when that call succeeded, update the mirror record to
canceled; a failed record is skipped and the loop continues. -/
def ensureSingleActiveSubscription (env : Env) (o : Oracle)
    (activeSub : StripeSubscription) (now : Nat) (store : List SubRecord) :
    List SubRecord :=
  match resolveUser env activeSub.customer with
  | none => store
  | some userId =>
    store.map (fun r =>
      if r.userId == userId && r.status == "active"
          && !(r.stripeSubscriptionId == activeSub.id)
          && !(o.cancelFails r.stripeSubscriptionId) then
        { r with status := "canceled", cancelAtPeriodEnd := true, updatedAt := now }
      else r)

/-- handleSubscriptionUpdated: update the existing mirror document (the
handler's catch absorbs the missing-document throw); when the new status
is active, run single-active enforcement afterwards. -/
def handleSubscriptionUpdated (env : Env) (o : Oracle)
    (sub : StripeSubscription) (now : Nat) (store : List SubRecord) :
    List SubRecord :=
  match fsUpdate store ("sub_" ++ sub.id) (updatedFields sub now) with
  | none => store
  | some store1 =>
    if sub.status == "active" then
      ensureSingleActiveSubscription env o sub now store1
    else
      store1

/-- handleSubscriptionDeleted: mark the mirror record canceled and stamp
canceledAt instead of deleting it (the catch absorbs the
missing-document throw). -/
def handleSubscriptionDeleted (sub : StripeSubscription) (now : Nat)
    (store : List SubRecord) : List SubRecord :=
  match fsUpdate store ("sub_" ++ sub.id)
      (fun r => { r with
        status := "canceled", canceledAt := some now, updatedAt := now }) with
  | none => store
  | some store1 => store1

/-- handleCustomerDeleted: batch-mark every mirror record of the deleted
customer as canceled. -/
def handleCustomerDeleted (customerId : String) (now : Nat)
    (store : List SubRecord) : List SubRecord :=
  store.map (fun r =>
    if r.stripeCustomerId == customerId then
      { r with status := "canceled", updatedAt := now }
    else r)

/-- handleInvoicePaymentSucceeded: when the invoice references a
subscription whose live gateway status is active, mirror that status. -/
def handleInvoicePaymentSucceeded (env : Env) (inv : Invoice) (now : Nat)
    (store : List SubRecord) : List SubRecord :=
  match inv.subscription with
  | none => store
  | some sid =>
    match env.liveStatus sid with
    | none => store
    | some live =>
      if live == "active" then
        match fsUpdate store ("sub_" ++ sid)
            (fun r => { r with status := "active", updatedAt := now }) with
        | none => store
        | some store1 => store1
      else
        store

/-- handleInvoicePaymentFailed: when the invoice references a subscription
whose live gateway status is past_due, mirror that status. -/
def handleInvoicePaymentFailed (env : Env) (inv : Invoice) (now : Nat)
    (store : List SubRecord) : List SubRecord :=
  match inv.subscription with
  | none => store
  | some sid =>
    match env.liveStatus sid with
    | none => store
    | some live =>
      if live == "past_due" then
        match fsUpdate store ("sub_" ++ sid)
            (fun r => { r with status := "past_due", updatedAt := now }) with
        | none => store
        | some store1 => store1
      else
        store

/-- A parsed webhook event envelope (event.type plus event.data.object). -/
inductive WebhookEvent where
  | subscriptionCreated (sub : StripeSubscription)
  | subscriptionUpdated (sub : StripeSubscription)
  | subscriptionDeleted (sub : StripeSubscription)
  | customerDeleted (customerId : String)
  | invoicePaymentSucceeded (inv : Invoice)
  | invoicePaymentFailed (inv : Invoice)
  | other (eventType : String)

/-- The switch over event.type.  Every branch calls a handler that catches
its own errors, so the switch itself never throws; the Except layer records
that the enclosing try/catch of the endpoint exists. -/
def dispatchEvent (env : Env) (o : Oracle) (recId : String) (now : Nat)
    (ev : WebhookEvent) (st : ServerState) : Except String ServerState :=
  match ev with
  | .subscriptionCreated sub => .ok (handleSubscriptionCreated env o sub recId now st)
  | .subscriptionUpdated sub =>
      .ok { st with subs := handleSubscriptionUpdated env o sub now st.subs }
  | .subscriptionDeleted sub =>
      .ok { st with subs := handleSubscriptionDeleted sub now st.subs }
  | .customerDeleted cid =>
      .ok { st with subs := handleCustomerDeleted cid now st.subs }
  | .invoicePaymentSucceeded inv =>
      .ok { st with subs := handleInvoicePaymentSucceeded env inv now st.subs }
  | .invoicePaymentFailed inv =>
      .ok { st with subs := handleInvoicePaymentFailed env inv now st.subs }
  | .other _ => .ok st

/-- HTTP responses of the webhook endpoint: received is the
json received true acknowledgment, invalidPayload and webhookError are the
400 responses, handlerFailed is the 500 response of the outer catch. -/
inductive WebhookResponse where
  | received
  | invalidPayload
  | webhookError
  | handlerFailed
  deriving DecidableEq

/-- The stripe-webhook endpoint.  secretConfigured says whether a signing
secret was resolved; sigValid is the outcome of the gateway signature
verification (constructEvent); parsed is the parsed event envelope, none
when the raw body does not parse (or, with a secret, when constructEvent
rejects).  Without a secret the event is processed unverified after a
logged warning. -/
def stripeWebhook (secretConfigured sigValid : Bool)
    (parsed : Option WebhookEvent) (env : Env) (o : Oracle)
    (recId : String) (now : Nat) (st : ServerState) :
    WebhookResponse × ServerState :=
  if secretConfigured then
    if sigValid then
      match parsed with
      | none => (.webhookError, st)
      | some ev =>
        match dispatchEvent env o recId now ev st with
        | .ok st1 => (.received, st1)
        | .error _ => (.handlerFailed, st)
    else
      (.webhookError, st)
  else
    match parsed with
    | none => (.invalidPayload, st)
    | some ev =>
      match dispatchEvent env o recId now ev st with
      | .ok st1 => (.received, st1)
      | .error _ => (.handlerFailed, st)

/-- Request body of the create-subscription endpoint (the fields the
mirror and ledger writes depend on). -/
structure CreateSubscriptionRequest where
  user_id : String
  user_email : Option String
  plan_type : String
  billing_cycle : String
  is_therapy_referral : Bool
  promo_code : Option String
  deriving DecidableEq

/-- Mirror record saved by the create-subscription endpoint: plan fields
come from the request, status and ids from the gateway's response. -/
def directSubRecord (req : CreateSubscriptionRequest)
    (newSub : StripeSubscription) : SubRecord :=
  { id := "sub_" ++ newSub.id
    userId := req.user_id
    planType := req.plan_type
    billingCycle := req.billing_cycle
    status := newSub.status
    stripeSubscriptionId := newSub.id
    stripeCustomerId := newSub.customer
    currentPeriodStart := newSub.current_period_start
    currentPeriodEnd := newSub.current_period_end
    cancelAtPeriodEnd := newSub.cancel_at_period_end
    isTherapyReferral := req.is_therapy_referral
    canceledAt := none
    createdAt := newSub.created
    updatedAt := newSub.updated }

/-- Ledger input assembled by the create-subscription endpoint. -/
def directFinInput (req : CreateSubscriptionRequest)
    (newSub : StripeSubscription) : FinInput :=
  { userId := req.user_id
    userEmail := req.user_email
    userName := none
    stripeSubscriptionId := newSub.id
    stripeCustomerId := some newSub.customer
    planType := req.plan_type
    billingCycle := req.billing_cycle
    amount := newSub.unitAmount
    startDate := newSub.current_period_start
    endDate := newSub.current_period_end
    status := some newSub.status
    isTherapyReferral := req.is_therapy_referral
    promoCode := req.promo_code }

/-- The cancellation loop shared with the create-subscription endpoint:
for every active mirror record of the user, request
cancellation-at-period-end from the gateway and, only when that call
succeeded (the per-record try), update the mirror record to canceled. -/
def cancelActiveForUser (uid : String) (cf : String → Bool) (now : Nat)
    (subs : List SubRecord) : List SubRecord :=
  subs.map (fun r =>
    if r.userId == uid && r.status == "active"
        && !(cf r.stripeSubscriptionId) then
      { r with
        status := "canceled"
        cancelAtPeriodEnd := true
        updatedAt := now }
    else r)

/-- Mirror and ledger writes of the create-subscription endpoint: first
cancel every existing active subscription of the requesting user, then
save the new mirror record returned by the gateway and append the ledger
record.  newSub is the subscription the gateway returned; recId the fresh
ledger document id.  The success path of the Firestore save is modeled;
its failure is caught in the source and leaves both writes out, which no
claim depends on. -/
def createSubscription (o : Oracle) (req : CreateSubscriptionRequest)
    (newSub : StripeSubscription) (recId : String) (now : Nat)
    (st : ServerState) : ServerState :=
  { subs :=
      fsSet (cancelActiveForUser req.user_id o.cancelFails now st.subs)
        (directSubRecord req newSub)
    fins :=
      if o.finCreateFails then st.fins
      else st.fins ++
        [createFinancialRecord (directFinInput req newSub) recId now] }

/-- The active-transition events of claim C1: a webhook subscription
updated delivery, and a direct create-subscription call. -/
inductive SubEvent where
  | webhookUpdated (sub : StripeSubscription)
  | directCreate (req : CreateSubscriptionRequest)
      (newSub : StripeSubscription) (recId : String)

/-- One event applied to the server state at wall-clock time now. -/
def stepEvent (env : Env) (o : Oracle) (e : SubEvent) (now : Nat)
    (st : ServerState) : ServerState :=
  match e with
  | .webhookUpdated sub =>
      { st with subs := handleSubscriptionUpdated env o sub now st.subs }
  | .directCreate req newSub recId =>
      createSubscription o req newSub recId now st

/-- A sequence of timestamped events applied in order. -/
def runEvents (env : Env) (o : Oracle) :
    List (SubEvent × Nat) → ServerState → ServerState
  | [], st => st
  | (e, t) :: rest, st => runEvents env o rest (stepEvent env o e t st)

/-! ### Claim theorems: the reconciler boundary -/

/-- Claim C2: with a signing secret configured, a delivery whose signature
fails verification is rejected with the 400 webhook error, no event is
classified and the server state, mirror store included, is unchanged. -/
theorem webhook_invalid_signature_rejected (parsed : Option WebhookEvent)
    (env : Env) (o : Oracle) (recId : String) (now : Nat) (st : ServerState) :
    stripeWebhook true false parsed env o recId now st = (.webhookError, st) :=
  rfl

/-- Claim C3: once a delivery is authenticated (signature valid, or no
secret configured) and parsed, the endpoint acknowledges with the received
response for every event type, every environment and every failure oracle:
handler failures are absorbed inside the handlers and never reach the
acknowledgment. -/
theorem webhook_always_acknowledges (secretConfigured sigValid : Bool)
    (ev : WebhookEvent) (env : Env) (o : Oracle) (recId : String) (now : Nat)
    (st : ServerState)
    (h : secretConfigured = false ∨ sigValid = true) :
    (stripeWebhook secretConfigured sigValid (some ev) env o recId now st).1
      = .received := by
  rcases h with h | h
  · subst h
    cases ev <;> rfl
  · subst h
    cases secretConfigured <;> cases ev <;> rfl

/-- Concrete environment for witnesses: customer cu1 has email a@b.c,
which the directory maps to user u1; the gateway reports subscription s9
live as active. -/
def demoEnv : Env :=
  { customerEmail := fun c => if c == "cu1" then some "a@b.c" else none
    users := [("u1", "a@b.c")]
    liveStatus := fun s => if s == "s9" then some "active" else none }

/-- Oracle for witnesses under which nothing fails. -/
def demoOracle : Oracle :=
  { cancelFails := fun _ => false, finCreateFails := false }

/-- Witness for C3 at a concrete authenticated, parsed delivery. -/
theorem webhook_always_acknowledges_witness :
    (stripeWebhook false true (some (.customerDeleted "cu1")) demoEnv
      demoOracle "fin9" 7 { subs := [], fins := [] }).1 = .received :=
  webhook_always_acknowledges false true (.customerDeleted "cu1") demoEnv
    demoOracle "fin9" 7 { subs := [], fins := [] } (Or.inl rfl)

/-- Claim C5: on a subscription deleted event with an existing mirror
record, the record's status becomes canceled and canceledAt is stamped,
every other field is kept, no record is removed, and records for other
subscriptions are untouched. -/
theorem subscription_deleted_is_soft (sub : StripeSubscription) (now : Nat)
    (store : List SubRecord)
    (hex : store.any (fun x => x.id == "sub_" ++ sub.id) = true) :
    handleSubscriptionDeleted sub now store
      = store.map (fun x =>
          if x.id == "sub_" ++ sub.id then
            { x with
              status := "canceled"
              canceledAt := some now
              updatedAt := now }
          else x)
  ∧ (handleSubscriptionDeleted sub now store).length = store.length
  ∧ ∀ x ∈ store,
      (x.id = "sub_" ++ sub.id →
        ({ x with
           status := "canceled"
           canceledAt := some now
           updatedAt := now } : SubRecord)
          ∈ handleSubscriptionDeleted sub now store)
    ∧ (x.id ≠ "sub_" ++ sub.id → x ∈ handleSubscriptionDeleted sub now store) := by
  have h1 : fsUpdate store ("sub_" ++ sub.id)
      (fun r => { r with
        status := "canceled"
        canceledAt := some now
        updatedAt := now })
      = some (store.map (fun x =>
          if x.id == "sub_" ++ sub.id then
            { x with
              status := "canceled"
              canceledAt := some now
              updatedAt := now }
          else x)) := by
    unfold fsUpdate
    rw [if_pos hex]
  have hmain : handleSubscriptionDeleted sub now store
      = store.map (fun x =>
          if x.id == "sub_" ++ sub.id then
            { x with
              status := "canceled"
              canceledAt := some now
              updatedAt := now }
          else x) := by
    unfold handleSubscriptionDeleted
    rw [h1]
  refine ⟨hmain, by rw [hmain, List.length_map], ?_⟩
  intro x hx
  constructor
  · intro hid
    rw [hmain]
    refine List.mem_map.mpr ⟨x, hx, ?_⟩
    rw [if_pos (by simp [hid])]
  · intro hid
    rw [hmain]
    refine List.mem_map.mpr ⟨x, hx, ?_⟩
    rw [if_neg (by simp [hid])]

/-- Concrete mirror store for the C5 witness. -/
def demoDeletedStore : List SubRecord :=
  [{ id := "sub_s1", userId := "u1", planType := "starter"
     billingCycle := "monthly", status := "active"
     stripeSubscriptionId := "s1", stripeCustomerId := "cu1"
     currentPeriodStart := 0, currentPeriodEnd := 100
     cancelAtPeriodEnd := false, isTherapyReferral := false
     canceledAt := none, createdAt := 0, updatedAt := 0 }]

/-- Gateway subscription object for the C5 witness. -/
def demoDeletedSub : StripeSubscription :=
  { id := "s1", customer := "cu1", status := "canceled"
    metadataPlanType := some "starter", metadataBillingCycle := some "monthly"
    metadataIsTherapyReferral := false, metadataPromoCode := none
    cancel_at_period_end := false, current_period_start := 0
    current_period_end := 100, created := 0, updated := 9, unitAmount := 999 }

/-- Witness for C5 at a one-record store. -/
theorem subscription_deleted_is_soft_witness :
    handleSubscriptionDeleted demoDeletedSub 9 demoDeletedStore
      = demoDeletedStore.map (fun x =>
          if x.id == "sub_" ++ demoDeletedSub.id then
            { x with
              status := "canceled"
              canceledAt := some 9
              updatedAt := 9 }
          else x)
  ∧ (handleSubscriptionDeleted demoDeletedSub 9 demoDeletedStore).length
      = demoDeletedStore.length := by
  have h := subscription_deleted_is_soft demoDeletedSub 9 demoDeletedStore
    (by decide)
  exact ⟨h.1, h.2.1⟩

/-- Claim C10: when enforcement runs for a subscription whose gateway
customer email matches no user in the directory, it returns without
cancelling anything: the mirror store is unchanged. -/
theorem enforcement_noop_when_user_unmapped (env : Env) (o : Oracle)
    (sub : StripeSubscription) (now : Nat) (store : List SubRecord)
    (e : String)
    (h1 : env.customerEmail sub.customer = some e)
    (h2 : lookupUserByEmail env.users e = none) :
    ensureSingleActiveSubscription env o sub now store = store := by
  have hres : resolveUser env sub.customer = none := by
    unfold resolveUser
    rw [h1]
    exact h2
  unfold ensureSingleActiveSubscription
  rw [hres]

/-- Environment for the C10 witness: the customer email x@y.z is mapped to
no directory user. -/
def demoUnmappedEnv : Env :=
  { customerEmail := fun c => if c == "cu2" then some "x@y.z" else none
    users := [("u1", "a@b.c")]
    liveStatus := fun _ => none }

/-- Gateway subscription of the unmapped customer for the C10 witness. -/
def demoUnmappedSub : StripeSubscription :=
  { id := "s2", customer := "cu2", status := "active"
    metadataPlanType := none, metadataBillingCycle := none
    metadataIsTherapyReferral := false, metadataPromoCode := none
    cancel_at_period_end := false, current_period_start := 0
    current_period_end := 100, created := 0, updated := 1, unitAmount := 999 }

/-- Witness for C10: with another active record of user u1 in the store,
enforcement for the unmapped customer changes nothing. -/
theorem enforcement_noop_when_user_unmapped_witness :
    ensureSingleActiveSubscription demoUnmappedEnv demoOracle demoUnmappedSub
      4 demoDeletedStore = demoDeletedStore :=
  enforcement_noop_when_user_unmapped demoUnmappedEnv demoOracle
    demoUnmappedSub 4 demoDeletedStore "x@y.z" (by decide) (by decide)

/-- Claim C4 (amended): on subscription created, the reconciler resolves
the user from the gateway customer email; when the retrieve fails or no
user matches, it drops the event without writing; otherwise it upserts the
mirror record and appends a financial ledger record unconditionally,
whatever the resulting status (the source has no status guard around the
ledger write). -/
theorem subscription_created_upserts_and_always_appends (env : Env)
    (o : Oracle) (sub : StripeSubscription) (recId : String) (now : Nat)
    (st : ServerState) :
    (env.customerEmail sub.customer = none →
        handleSubscriptionCreated env o sub recId now st = st)
  ∧ (∀ e, env.customerEmail sub.customer = some e →
        lookupUserByEmail env.users e = none →
        handleSubscriptionCreated env o sub recId now st = st)
  ∧ (∀ e uid, env.customerEmail sub.customer = some e →
        lookupUserByEmail env.users e = some uid →
        o.finCreateFails = false →
        handleSubscriptionCreated env o sub recId now st =
          { subs := fsSet st.subs (webhookSubRecord uid sub)
            fins := st.fins ++
              [createFinancialRecord (webhookFinInput uid e sub) recId now] }) := by
  refine ⟨?_, ?_, ?_⟩
  · intro h
    unfold handleSubscriptionCreated
    rw [h]
  · intro e h1 h2
    unfold handleSubscriptionCreated
    rw [h1]
    simp [h2]
  · intro e uid h1 h2 h3
    unfold handleSubscriptionCreated
    rw [h1]
    simp [h2, h3]

/-- Gateway subscription with a non-active status for the C4
counterexample. -/
def demoIncompleteSub : StripeSubscription :=
  { id := "s3", customer := "cu1", status := "incomplete"
    metadataPlanType := some "starter", metadataBillingCycle := some "monthly"
    metadataIsTherapyReferral := false, metadataPromoCode := none
    cancel_at_period_end := false, current_period_start := 0
    current_period_end := 100, created := 0, updated := 0, unitAmount := 999 }

/-- Counterexample to C4 as stated: a subscription created event whose
resulting status is incomplete, not active, still appends a financial
ledger record, so the append is not conditional on the status being
active. -/
theorem subscription_created_appends_for_inactive_cex :
    (handleSubscriptionCreated demoEnv demoOracle demoIncompleteSub "finX" 3
        { subs := [], fins := [] }).fins.length = 1
  ∧ demoIncompleteSub.status ≠ "active"
  ∧ (handleSubscriptionCreated demoEnv demoOracle demoIncompleteSub "finX" 3
        { subs := [], fins := [] }).subs
      = [webhookSubRecord "u1" demoIncompleteSub] := by
  refine ⟨?_, ?_, ?_⟩ <;> decide

/-- Witness for the amended C4: the drop branch and the upsert-and-append
branch at concrete inputs. -/
theorem subscription_created_upserts_and_always_appends_witness :
    handleSubscriptionCreated demoUnmappedEnv demoOracle demoUnmappedSub
      "finY" 4 { subs := [], fins := [] } = { subs := [], fins := [] }
  ∧ handleSubscriptionCreated demoEnv demoOracle demoIncompleteSub "finX" 3
      { subs := [], fins := [] } =
      { subs := fsSet [] (webhookSubRecord "u1" demoIncompleteSub)
        fins := [] ++
          [createFinancialRecord
            (webhookFinInput "u1" "a@b.c" demoIncompleteSub) "finX" 3] } := by
  constructor
  · exact (subscription_created_upserts_and_always_appends demoUnmappedEnv
      demoOracle demoUnmappedSub "finY" 4 { subs := [], fins := [] }).2.1
      "x@y.z" (by decide) (by decide)
  · exact (subscription_created_upserts_and_always_appends demoEnv
      demoOracle demoIncompleteSub "finX" 3 { subs := [], fins := [] }).2.2
      "a@b.c" "u1" (by decide) (by decide) (by decide)

/-- Claim C6 (amended): in single-active enforcement the two steps per
matched record run in sequence, not independently: the mirror update to
canceled is performed exactly when the gateway cancellation succeeded, and
a record whose gateway cancellation fails keeps its mirror record
unchanged; but matched records are isolated from each other, so each
record's outcome depends only on its own gateway call, and unmatched
records are always untouched. -/
theorem enforcement_per_record_isolation (env : Env) (o : Oracle)
    (sub : StripeSubscription) (now : Nat) (store : List SubRecord)
    (uid : String)
    (hres : resolveUser env sub.customer = some uid) :
    ∀ r ∈ store,
      ((r.userId = uid ∧ r.status = "active"
          ∧ r.stripeSubscriptionId ≠ sub.id) →
        (o.cancelFails r.stripeSubscriptionId = true →
            r ∈ ensureSingleActiveSubscription env o sub now store)
      ∧ (o.cancelFails r.stripeSubscriptionId = false →
            ({ r with
              status := "canceled"
              cancelAtPeriodEnd := true
              updatedAt := now } : SubRecord)
              ∈ ensureSingleActiveSubscription env o sub now store))
    ∧ (¬ (r.userId = uid ∧ r.status = "active"
            ∧ r.stripeSubscriptionId ≠ sub.id) →
        r ∈ ensureSingleActiveSubscription env o sub now store) := by
  intro r hr
  unfold ensureSingleActiveSubscription
  rw [hres]
  constructor
  · rintro ⟨hu, hs, hid⟩
    constructor
    · intro hcf
      refine List.mem_map.mpr ⟨r, hr, ?_⟩
      rw [if_neg (by simp [hcf])]
    · intro hcf
      refine List.mem_map.mpr ⟨r, hr, ?_⟩
      rw [if_pos (by simp [hu, hs, hid, hcf])]
  · intro hneg
    refine List.mem_map.mpr ⟨r, hr, ?_⟩
    rw [if_neg ?_]
    intro hc
    simp only [Bool.and_eq_true, beq_iff_eq, Bool.not_eq_true',
      Bool.not_eq_true] at hc
    exact hneg ⟨hc.1.1.1, hc.1.1.2, by simpa using hc.1.2⟩

/-- Oracle for the C6 scenario: the gateway cancellation of subscription
s0 fails, every other call succeeds. -/
def demoFailOracle : Oracle :=
  { cancelFails := fun sid => sid == "s0", finCreateFails := false }

/-- Mirror record of subscription s0, active, owned by u1. -/
def demoSubRec0 : SubRecord :=
  { id := "sub_s0", userId := "u1", planType := "starter"
    billingCycle := "monthly", status := "active"
    stripeSubscriptionId := "s0", stripeCustomerId := "cu1"
    currentPeriodStart := 0, currentPeriodEnd := 100
    cancelAtPeriodEnd := false, isTherapyReferral := false
    canceledAt := none, createdAt := 0, updatedAt := 0 }

/-- Mirror record of subscription s2, active, owned by u1. -/
def demoSubRec2 : SubRecord :=
  { id := "sub_s2", userId := "u1", planType := "premium"
    billingCycle := "yearly", status := "active"
    stripeSubscriptionId := "s2", stripeCustomerId := "cu1"
    currentPeriodStart := 0, currentPeriodEnd := 100
    cancelAtPeriodEnd := false, isTherapyReferral := false
    canceledAt := none, createdAt := 0, updatedAt := 0 }

/-- The newly active subscription s9 of customer cu1 (mapped to u1). -/
def demoActiveSub : StripeSubscription :=
  { id := "s9", customer := "cu1", status := "active"
    metadataPlanType := some "starter", metadataBillingCycle := some "monthly"
    metadataIsTherapyReferral := false, metadataPromoCode := none
    cancel_at_period_end := false, current_period_start := 0
    current_period_end := 100, created := 0, updated := 5, unitAmount := 999 }

/-- Counterexample to C6 as stated: with s0's gateway cancellation
failing, the mirror update for s0 is not attempted (its record stays
active and no canceled copy exists), so step (b) is not independent of
step (a); the other matched record s2 is still canceled. -/
theorem enforcement_steps_not_independent_cex :
    ¬ (({ demoSubRec0 with
          status := "canceled"
          cancelAtPeriodEnd := true
          updatedAt := 5 } : SubRecord)
        ∈ ensureSingleActiveSubscription demoEnv demoFailOracle demoActiveSub
            5 [demoSubRec0, demoSubRec2])
  ∧ demoSubRec0 ∈ ensureSingleActiveSubscription demoEnv demoFailOracle
      demoActiveSub 5 [demoSubRec0, demoSubRec2]
  ∧ ({ demoSubRec2 with
        status := "canceled"
        cancelAtPeriodEnd := true
        updatedAt := 5 } : SubRecord)
      ∈ ensureSingleActiveSubscription demoEnv demoFailOracle demoActiveSub
          5 [demoSubRec0, demoSubRec2] := by
  refine ⟨?_, ?_, ?_⟩ <;> decide

/-- Witness for the amended C6 at the concrete two-record store. -/
theorem enforcement_per_record_isolation_witness :
    demoSubRec0 ∈ ensureSingleActiveSubscription demoEnv demoFailOracle
      demoActiveSub 5 [demoSubRec0, demoSubRec2]
  ∧ ({ demoSubRec2 with
        status := "canceled"
        cancelAtPeriodEnd := true
        updatedAt := 5 } : SubRecord)
      ∈ ensureSingleActiveSubscription demoEnv demoFailOracle demoActiveSub
          5 [demoSubRec0, demoSubRec2] := by
  have h := enforcement_per_record_isolation demoEnv demoFailOracle
    demoActiveSub 5 [demoSubRec0, demoSubRec2] "u1" (by decide)
  constructor
  · exact ((h demoSubRec0 (by decide)).1
      ⟨by decide, by decide, by decide⟩).1 (by decide)
  · exact ((h demoSubRec2 (by decide)).1
      ⟨by decide, by decide, by decide⟩).2 (by decide)

/-! ### Claim C1: the single-active invariant -/

/-- Number of active mirror records of user u (the size of the result of
the compound query userId == u and status == active). -/
def activeCount (subs : List SubRecord) (u : String) : Nat :=
  subs.countP (fun r => r.userId == u && r.status == "active")

/-- The invariant of claim C1: at most one active mirror record per user. -/
def atMostOneActive (subs : List SubRecord) : Prop :=
  ∀ u : String, activeCount subs u ≤ 1

/-- Store shape every reconciler write maintains: document ids are unique
(a Firestore guarantee) and each id is sub_ plus the record's gateway
subscription id (every writer keys mirror records this way). -/
def wellFormed (subs : List SubRecord) : Prop :=
  (subs.map (fun r => r.id)).Nodup
  ∧ ∀ r ∈ subs, r.id = "sub_" ++ r.stripeSubscriptionId

/-- Side condition under which one event keeps the invariant: for a
webhook update that makes a subscription active, the gateway customer's
email must resolve in the user directory to the owner recorded on that
subscription's mirror record. -/
def eventOk (env : Env) (e : SubEvent) (subs : List SubRecord) : Prop :=
  match e with
  | .webhookUpdated sub =>
      sub.status = "active" →
        ∀ r ∈ subs, r.id = "sub_" ++ sub.id →
          resolveUser env sub.customer = some r.userId
  | .directCreate _ _ _ => True

/-- eventOk at every step of a run. -/
def runOk (env : Env) (o : Oracle) :
    List (SubEvent × Nat) → ServerState → Prop
  | [], _ => True
  | (e, t) :: rest, st =>
      eventOk env e st.subs ∧ runOk env o rest (stepEvent env o e t st)

/-- Unique ids bound the count of any id-keyed query by one. -/
theorem countP_id_le_one (subs : List SubRecord)
    (h : (subs.map (fun r => r.id)).Nodup) (X : String) :
    subs.countP (fun r => r.id == X) ≤ 1 := by
  have he : subs.countP (fun r => r.id == X)
      = (subs.map (fun r => r.id)).count X := by
    rw [List.count_eq_countP, List.countP_map]
    rfl
  rw [he]
  exact List.nodup_iff_count_le_one.mp h X

/-- Setting a document adds at most that document's contribution to any
user's active count. -/
theorem activeCount_fsSet_le (subs : List SubRecord) (r : SubRecord)
    (v : String) :
    activeCount (fsSet subs r) v ≤ activeCount subs v
      + (if r.userId == v && r.status == "active" then 1 else 0) := by
  unfold activeCount fsSet
  rw [List.countP_append]
  have h1 : (subs.filter (fun x => !(x.id == r.id))).countP
      (fun x => x.userId == v && x.status == "active")
      ≤ subs.countP (fun x => x.userId == v && x.status == "active") :=
    (List.filter_sublist subs).countP_le _
  have h2 : ([r].countP (fun x => x.userId == v && x.status == "active"))
      = (if r.userId == v && r.status == "active" then 1 else 0) := by
    rw [List.countP_cons]
    simp [List.countP_nil]
  omega

/-- A map that changes neither ids nor gateway subscription ids keeps the
store well formed. -/
theorem wellFormed_map (subs : List SubRecord) (f : SubRecord → SubRecord)
    (hid : ∀ r ∈ subs, (f r).id = r.id)
    (hss : ∀ r ∈ subs, (f r).stripeSubscriptionId = r.stripeSubscriptionId)
    (hwf : wellFormed subs) : wellFormed (subs.map f) := by
  constructor
  · have he : (subs.map f).map (fun r => r.id) = subs.map (fun r => r.id) := by
      rw [List.map_map]
      exact List.map_congr_left (fun a ha => hid a ha)
    rw [he]
    exact hwf.1
  · intro r hr
    obtain ⟨x, hx, rfl⟩ := List.mem_map.mp hr
    rw [hid x hx, hss x hx]
    exact hwf.2 x hx

/-- Setting a consistently keyed document keeps the store well formed. -/
theorem wellFormed_fsSet (subs : List SubRecord) (r : SubRecord)
    (hr : r.id = "sub_" ++ r.stripeSubscriptionId)
    (hwf : wellFormed subs) : wellFormed (fsSet subs r) := by
  unfold fsSet
  constructor
  · rw [List.map_append, List.nodup_append]
    refine ⟨hwf.1.sublist ((List.filter_sublist subs).map _),
      List.nodup_singleton _, ?_⟩
    intro a ha hb
    simp only [List.map_cons, List.map_nil, List.mem_singleton] at hb
    subst hb
    obtain ⟨x, hx, hxe⟩ := List.mem_map.mp ha
    have := (List.mem_filter.mp hx).2
    simp only [Bool.not_eq_true'] at this
    rw [hxe] at this
    simp at this
  · intro x hx
    rcases List.mem_append.mp hx with h | h
    · exact hwf.2 x (List.mem_filter.mp h).1
    · rw [List.mem_singleton] at h
      subst h
      exact hr

/-- With no gateway failures, the cancellation loop leaves the user with
zero active records. -/
theorem cancelActiveForUser_own (uid : String) (cf : String → Bool)
    (now : Nat) (subs : List SubRecord)
    (hnf : ∀ sid, cf sid = false) :
    activeCount (cancelActiveForUser uid cf now subs) uid = 0 := by
  unfold activeCount cancelActiveForUser
  rw [List.countP_map]
  apply List.countP_eq_zero.mpr
  intro r hr
  by_cases hc : (r.userId == uid && r.status == "active"
      && !(cf r.stripeSubscriptionId)) = true
  · show ¬ _
    rw [Function.comp_apply, if_pos hc]
    simp
  · show ¬ _
    rw [Function.comp_apply, if_neg hc]
    intro hp
    apply hc
    rw [hnf r.stripeSubscriptionId]
    simp only [Bool.not_false, Bool.and_true]
    exact hp

/-- The cancellation loop does not touch the counts of other users. -/
theorem cancelActiveForUser_other (uid : String) (cf : String → Bool)
    (now : Nat) (subs : List SubRecord) (v : String) (hv : ¬ v = uid) :
    activeCount (cancelActiveForUser uid cf now subs) v
      = activeCount subs v := by
  unfold activeCount cancelActiveForUser
  rw [List.countP_map]
  apply List.countP_congr
  intro r hr
  by_cases hc : (r.userId == uid && r.status == "active"
      && !(cf r.stripeSubscriptionId)) = true
  · have hru : r.userId = uid := by
      have := hc
      simp only [Bool.and_eq_true, beq_iff_eq] at this
      exact this.1.1
    rw [Function.comp_apply, if_pos hc]
    constructor
    · intro h
      simp at h
    · intro h
      simp only [Bool.and_eq_true, beq_iff_eq] at h
      exact absurd (hru ▸ h.1).symm hv
  · rw [Function.comp_apply, if_neg hc]

/-- Enforcement unfolded when the user resolves. -/
theorem ensureSingle_eq_of_resolve (env : Env) (o : Oracle)
    (sub : StripeSubscription) (now : Nat) (store : List SubRecord)
    (uid : String) (h : resolveUser env sub.customer = some uid) :
    ensureSingleActiveSubscription env o sub now store =
      store.map (fun r =>
        if r.userId == uid && r.status == "active"
            && !(r.stripeSubscriptionId == sub.id)
            && !(o.cancelFails r.stripeSubscriptionId) then
          { r with
            status := "canceled"
            cancelAtPeriodEnd := true
            updatedAt := now }
        else r) := by
  unfold ensureSingleActiveSubscription
  rw [h]

/-- The updated handler unfolded when the mirror document exists. -/
theorem handleSubUpdated_eq_some (env : Env) (o : Oracle)
    (sub : StripeSubscription) (now : Nat) (store subs1 : List SubRecord)
    (h : fsUpdate store ("sub_" ++ sub.id) (updatedFields sub now) = some subs1) :
    handleSubscriptionUpdated env o sub now store =
      if (sub.status == "active") = true
      then ensureSingleActiveSubscription env o sub now subs1
      else subs1 := by
  unfold handleSubscriptionUpdated
  rw [h]

/-- The updated handler is a no-op when the mirror document is absent
(the Firestore update throws and the handler catch absorbs it). -/
theorem handleSubUpdated_eq_none (env : Env) (o : Oracle)
    (sub : StripeSubscription) (now : Nat) (store : List SubRecord)
    (h : fsUpdate store ("sub_" ++ sub.id) (updatedFields sub now) = none) :
    handleSubscriptionUpdated env o sub now store = store := by
  unfold handleSubscriptionUpdated
  rw [h]

/-- One C1 event preserves well-formedness and the single-active
invariant, given no gateway cancellation failures and the eventOk side
condition. -/
theorem stepEvent_preserves (env : Env) (o : Oracle)
    (hnf : ∀ sid, o.cancelFails sid = false)
    (e : SubEvent) (t : Nat) (st : ServerState)
    (hwf : wellFormed st.subs) (hinv : atMostOneActive st.subs)
    (hok : eventOk env e st.subs) :
    wellFormed (stepEvent env o e t st).subs
    ∧ atMostOneActive (stepEvent env o e t st).subs := by
  cases e with
  | directCreate req newSub recId =>
    show wellFormed (fsSet (cancelActiveForUser req.user_id o.cancelFails t
          st.subs) (directSubRecord req newSub))
      ∧ atMostOneActive (fsSet (cancelActiveForUser req.user_id o.cancelFails t
          st.subs) (directSubRecord req newSub))
    have hwf1 : wellFormed (cancelActiveForUser req.user_id o.cancelFails t
        st.subs) := by
      unfold cancelActiveForUser
      refine wellFormed_map _ _ ?_ ?_ hwf
      · intro r hr
        by_cases hc : (r.userId == req.user_id && r.status == "active"
            && !(o.cancelFails r.stripeSubscriptionId)) = true
        · rw [if_pos hc]
        · rw [if_neg hc]
      · intro r hr
        by_cases hc : (r.userId == req.user_id && r.status == "active"
            && !(o.cancelFails r.stripeSubscriptionId)) = true
        · rw [if_pos hc]
        · rw [if_neg hc]
    constructor
    · exact wellFormed_fsSet _ _ rfl hwf1
    · intro v
      refine le_trans (activeCount_fsSet_le _ _ v) ?_
      by_cases hv : v = req.user_id
      · subst hv
        rw [cancelActiveForUser_own _ _ _ _ hnf]
        by_cases hp : ((directSubRecord req newSub).userId == req.user_id
            && (directSubRecord req newSub).status == "active") = true
        · rw [if_pos hp]
        · rw [if_neg hp]
          omega
      · rw [cancelActiveForUser_other _ _ _ _ v hv]
        have hp : ((directSubRecord req newSub).userId == v
            && (directSubRecord req newSub).status == "active") = false := by
          have : ((directSubRecord req newSub).userId == v) = false := by
            show (req.user_id == v) = false
            exact beq_eq_false_iff_ne.mpr (fun he => hv he.symm)
          rw [this]
          rfl
        rw [hp]
        simp only [Bool.false_eq_true, if_false]
        have := hinv v
        omega
  | webhookUpdated sub =>
    show wellFormed (handleSubscriptionUpdated env o sub t st.subs)
      ∧ atMostOneActive (handleSubscriptionUpdated env o sub t st.subs)
    cases hfs : fsUpdate st.subs ("sub_" ++ sub.id) (updatedFields sub t) with
    | none =>
      rw [handleSubUpdated_eq_none env o sub t st.subs hfs]
      exact ⟨hwf, hinv⟩
    | some subs1 =>
      rw [handleSubUpdated_eq_some env o sub t st.subs subs1 hfs]
      have hany : (st.subs.any (fun x => x.id == "sub_" ++ sub.id)) = true := by
        by_contra hA
        unfold fsUpdate at hfs
        rw [if_neg hA] at hfs
        cases hfs
      have hsubs1 : subs1 = st.subs.map (fun x =>
          if x.id == "sub_" ++ sub.id then updatedFields sub t x else x) := by
        unfold fsUpdate at hfs
        rw [if_pos hany] at hfs
        exact (Option.some.inj hfs).symm
      have hwf1 : wellFormed subs1 := by
        rw [hsubs1]
        refine wellFormed_map _ _ ?_ ?_ hwf
        · intro r hr
          by_cases hc : (r.id == "sub_" ++ sub.id) = true
          · rw [if_pos hc]
            rfl
          · rw [if_neg hc]
        · intro r hr
          by_cases hc : (r.id == "sub_" ++ sub.id) = true
          · rw [if_pos hc]
            rfl
          · rw [if_neg hc]
      by_cases hact : (sub.status == "active") = true
      · rw [if_pos hact]
        have hssEq : sub.status = "active" := by simpa using hact
        obtain ⟨r0, hr0, hid0b⟩ := List.any_eq_true.mp hany
        have hid0 : r0.id = "sub_" ++ sub.id := by simpa using hid0b
        have hres : resolveUser env sub.customer = some r0.userId :=
          hok hssEq r0 hr0 hid0
        rw [ensureSingle_eq_of_resolve env o sub t subs1 r0.userId hres]
        constructor
        · refine wellFormed_map _ _ ?_ ?_ hwf1
          · intro r hr
            by_cases hc : (r.userId == r0.userId && r.status == "active"
                && !(r.stripeSubscriptionId == sub.id)
                && !(o.cancelFails r.stripeSubscriptionId)) = true
            · rw [if_pos hc]
            · rw [if_neg hc]
          · intro r hr
            by_cases hc : (r.userId == r0.userId && r.status == "active"
                && !(r.stripeSubscriptionId == sub.id)
                && !(o.cancelFails r.stripeSubscriptionId)) = true
            · rw [if_pos hc]
            · rw [if_neg hc]
        · intro v
          by_cases hv : v = r0.userId
          · subst hv
            unfold activeCount
            rw [List.countP_map]
            refine le_trans (List.countP_mono_left ?_)
              (countP_id_le_one subs1 hwf1.1 ("sub_" ++ sub.id))
            intro r hr hp
            rw [Function.comp_apply] at hp
            by_cases hc : (r.userId == r0.userId && r.status == "active"
                && !(r.stripeSubscriptionId == sub.id)
                && !(o.cancelFails r.stripeSubscriptionId)) = true
            · rw [if_pos hc] at hp
              simp at hp
            · rw [if_neg hc] at hp
              simp only [Bool.and_eq_true, beq_iff_eq] at hp
              have hss : (r.stripeSubscriptionId == sub.id) = true := by
                by_contra hss2
                apply hc
                have e1 : (r.userId == r0.userId) = true := by
                  simp [hp.1]
                have e2 : (r.status == "active") = true := by
                  simp [hp.2]
                have e3 : (!(r.stripeSubscriptionId == sub.id)) = true := by
                  rw [Bool.eq_false_iff.mpr hss2]
                  rfl
                have e4 : (!(o.cancelFails r.stripeSubscriptionId)) = true := by
                  rw [hnf]
                  rfl
                rw [e1, e2, e3, e4]
                rfl
              have hrid : r.id = "sub_" ++ sub.id := by
                have h2 := hwf1.2 r hr
                rw [h2]
                have h3 : r.stripeSubscriptionId = sub.id := by simpa using hss
                rw [h3]
              simp [hrid]
          · unfold activeCount
            rw [List.countP_map]
            have h2 : subs1.countP ((fun r =>
                r.userId == v && r.status == "active") ∘ (fun r =>
                if r.userId == r0.userId && r.status == "active"
                    && !(r.stripeSubscriptionId == sub.id)
                    && !(o.cancelFails r.stripeSubscriptionId) then
                  { r with
                    status := "canceled"
                    cancelAtPeriodEnd := true
                    updatedAt := t }
                else r))
                = subs1.countP (fun r => r.userId == v && r.status == "active") := by
              apply List.countP_congr
              intro r hr
              rw [Function.comp_apply]
              by_cases hc : (r.userId == r0.userId && r.status == "active"
                  && !(r.stripeSubscriptionId == sub.id)
                  && !(o.cancelFails r.stripeSubscriptionId)) = true
              · have hru : r.userId = r0.userId := by
                  simp only [Bool.and_eq_true, beq_iff_eq] at hc
                  exact hc.1.1.1
                rw [if_pos hc]
                constructor
                · intro h
                  simp at h
                · intro h
                  simp only [Bool.and_eq_true, beq_iff_eq] at h
                  exact absurd (h.1 ▸ hru) hv
              · rw [if_neg hc]
            rw [h2]
            have h3 : subs1.countP (fun r => r.userId == v && r.status == "active")
                = activeCount st.subs v := by
              rw [hsubs1]
              unfold activeCount
              rw [List.countP_map]
              apply List.countP_congr
              intro x hx
              rw [Function.comp_apply]
              by_cases hd : (x.id == "sub_" ++ sub.id) = true
              · rw [if_pos hd]
                have hxid : x.id = "sub_" ++ sub.id := by simpa using hd
                have hxres : resolveUser env sub.customer = some x.userId :=
                  hok hssEq x hx hxid
                have hxu : x.userId = r0.userId := by
                  rw [hres] at hxres
                  exact (Option.some.inj hxres).symm
                have hne : (x.userId == v) = false := by
                  rw [hxu]
                  exact beq_eq_false_iff_ne.mpr (fun he => hv he.symm)
                have hup : (updatedFields sub t x).userId = x.userId := rfl
                constructor
                · intro h
                  exfalso
                  simp only [Bool.and_eq_true] at h
                  have := h.1
                  rw [hup, hne] at this
                  cases this
                · intro h
                  exfalso
                  simp only [Bool.and_eq_true] at h
                  have := h.1
                  rw [hne] at this
                  cases this
              · rw [if_neg hd]
            rw [h3]
            exact hinv v
      · rw [if_neg hact]
        refine ⟨hwf1, ?_⟩
        intro v
        have hle : activeCount subs1 v ≤ activeCount st.subs v := by
          rw [hsubs1]
          unfold activeCount
          rw [List.countP_map]
          apply List.countP_mono_left
          intro x hx hp
          rw [Function.comp_apply] at hp
          by_cases hd : (x.id == "sub_" ++ sub.id) = true
          · rw [if_pos hd] at hp
            exfalso
            simp only [Bool.and_eq_true] at hp
            have h2 : ((updatedFields sub t x).status == "active") = true := hp.2
            exact hact h2
          · rw [if_neg hd] at hp
            exact hp
        exact le_trans hle (hinv v)

/-- Claim C1 (amended): starting from a well-formed mirror store with at
most one active record per user, any sequence of active-transition events
(webhook-driven updates and direct subscription creations) keeps at most
one active mirror record per user, provided no gateway cancellation fails
and, for every webhook update that makes a subscription active, the
gateway customer's email resolves in the user directory to the owner of
that subscription's mirror record. -/
theorem single_active_invariant_preserved (env : Env) (o : Oracle)
    (evs : List (SubEvent × Nat)) (st : ServerState)
    (hnf : ∀ sid, o.cancelFails sid = false)
    (hwf : wellFormed st.subs)
    (hinv : atMostOneActive st.subs)
    (hok : runOk env o evs st) :
    atMostOneActive (runEvents env o evs st).subs := by
  induction evs generalizing st with
  | nil => exact hinv
  | cons et rest ih =>
    obtain ⟨e, t⟩ := et
    have h := stepEvent_preserves env o hnf e t st hwf hinv hok.1
    exact ih (stepEvent env o e t st) h.1 h.2 hok.2

/-- Directory for the C1 counterexample: the customer email of c1 is
mapped to no user. -/
def demoCexEnv : Env :=
  { customerEmail := fun c => if c == "c1" then some "nomatch@x" else none
    users := []
    liveStatus := fun _ => none }

/-- Create-subscription request of user u1 for the C1 scenario. -/
def demoCexReq : CreateSubscriptionRequest :=
  { user_id := "u1", user_email := some "a@b.c", plan_type := "starter"
    billing_cycle := "monthly", is_therapy_referral := false
    promo_code := none }

/-- Gateway response s1, created incomplete, customer c1. -/
def demoCexSub1 : StripeSubscription :=
  { id := "s1", customer := "c1", status := "incomplete"
    metadataPlanType := some "starter", metadataBillingCycle := some "monthly"
    metadataIsTherapyReferral := false, metadataPromoCode := none
    cancel_at_period_end := false, current_period_start := 0
    current_period_end := 100, created := 1, updated := 1, unitAmount := 999 }

/-- Gateway response s0, created active, customer c0. -/
def demoCexSub0 : StripeSubscription :=
  { id := "s0", customer := "c0", status := "active"
    metadataPlanType := some "starter", metadataBillingCycle := some "monthly"
    metadataIsTherapyReferral := false, metadataPromoCode := none
    cancel_at_period_end := false, current_period_start := 0
    current_period_end := 100, created := 2, updated := 2, unitAmount := 999 }

/-- Webhook payload: s1 became active. -/
def demoCexUpd1 : StripeSubscription :=
  { id := "s1", customer := "c1", status := "active"
    metadataPlanType := some "starter", metadataBillingCycle := some "monthly"
    metadataIsTherapyReferral := false, metadataPromoCode := none
    cancel_at_period_end := false, current_period_start := 0
    current_period_end := 100, created := 1, updated := 3, unitAmount := 999 }

/-- The C1 counterexample event sequence, from an empty store: create s1
(incomplete) for u1, create s0 (active) for u1, then a webhook update
turning s1 active whose customer email is unmapped in the directory. -/
def demoCexEvents : List (SubEvent × Nat) :=
  [(.directCreate demoCexReq demoCexSub1 "f1", 1),
   (.directCreate demoCexReq demoCexSub0 "f2", 2),
   (.webhookUpdated demoCexUpd1, 3)]

/-- Counterexample to C1 as stated: after this sequence of
active-transition events (all gateway calls succeeding), user u1 holds two
active mirror records, because enforcement finds no directory user for the
customer email and returns without cancelling. -/
theorem single_active_invariant_cex :
    ¬ atMostOneActive (runEvents demoCexEnv demoOracle demoCexEvents
        { subs := [], fins := [] }).subs := by
  intro h
  exact absurd (h "u1") (by decide)

/-- Event sequence for the C1 witness: create s1 active for u1, then a
webhook update for s1 whose customer cu1 resolves to u1. -/
def demoGoodEvents : List (SubEvent × Nat) :=
  [(.directCreate demoCexReq demoActiveSub "f1", 1),
   (.webhookUpdated demoActiveSub, 2)]

/-- Witness for the amended C1 on a concrete run from the empty store. -/
theorem single_active_invariant_preserved_witness :
    atMostOneActive (runEvents demoEnv demoOracle demoGoodEvents
        { subs := [], fins := [] }).subs := by
  apply single_active_invariant_preserved demoEnv demoOracle demoGoodEvents
    { subs := [], fins := [] } (fun sid => rfl)
  · exact ⟨List.nodup_nil, fun r hr => absurd hr (List.not_mem_nil r)⟩
  · intro u
    exact Nat.zero_le 1
  · exact ⟨trivial, by intro hs; decide, trivial⟩

end FF
